import Mathlib

/-!
Verification of the profile-picture upload service (`server.js`).

The service is an HTTP gateway that validates an uploaded image, derives a
storage key from an optional client identifier, stores the bytes in an
object-storage bucket, and resolves a display URL.  We embed the pure
decision logic of `server.js` (the validator, the key deriver, the
content-type resolver, the URL-resolution policy, the upload orchestration
with an explicit store, and the two lookup handlers) as executable Lean
definitions, and prove the specified properties about them.

Strings are modelled by Lean `String` (a list of unicode characters, as in
JavaScript); byte buffers by `List Nat`; absent values (`undefined`) by
`Option`.
-/

/-- ASCII lower-casing of one character, as the JavaScript method `toLowerCase` acts
on ASCII letters (all strings compared here are ASCII). -/
def charLowerAscii (c : Char) : Char :=
  if 'A' ≤ c ∧ c ≤ 'Z' then Char.ofNat (c.toNat + 32) else c

/-- ASCII lower-casing of a string (`s.toLowerCase()` on ASCII input). -/
def strLowerAscii (s : String) : String :=
  String.mk (s.data.map charLowerAscii)

deriving instance DecidableEq for Except

/-- Returns `true` exactly when `pat` occurs as a contiguous substring of `s`
(JavaScript `s.includes(pat)`). -/
def strContainsSub (s pat : String) : Bool :=
  s.data.tails.any (fun t => pat.data.isPrefixOf t)

/-- One trailing `'/'` removed, if present: JavaScript
`s.replace(/\/$/, '')` (the regex is anchored and not global, so it strips
at most one trailing slash). -/
def stripTrailingSlash (s : String) : String :=
  match s.data.getLast? with
  | some c => if c = '/' then String.mk s.data.dropLast else s
  | none => s

/-- Test for a literal string prefix (the anchored regex `^image\/` and
the JavaScript truthiness test collapse to this over strings). -/
def strStartsWith (s pre : String) : Bool :=
  pre.data.isPrefixOf s.data

/-- Every `'/'` character replaced by `'-'`: JavaScript
`s.replace(/\//g, '-')`. -/
def replaceSlashes (s : String) : String :=
  String.mk (s.data.map (fun c => if c = '/' then '-' else c))

/-- State threaded by the `path.extname` scan of Node (`lib/path.js`, posix):
`startDot` is the index of the right-most `'.'` seen, `startPart` the start
of the basename, `endIdx` one past the last non-slash character, and
`preDotState` records what was seen to the left of the right-most dot
(0 = nothing yet, 1 = only further dots, -1 = a non-dot character). -/
structure ExtScanState where
  startDot : Option Nat
  startPart : Nat
  endIdx : Option Nat
  preDotState : Int
deriving Repr, DecidableEq

/-- The right-to-left scan of the `path.extname` scan of Node, transcribed: `i + 1`
is the number of characters still to inspect (so the character at index `i`
is inspected next); the scan stops early at the first `'/'` found after a
non-slash character. -/
def extnameScan (cs : List Char) : Nat → ExtScanState → ExtScanState
  | 0, st => st
  | i + 1, st =>
    let c := cs.getD i ' '
    if c = '/' then
      if st.endIdx.isSome then { st with startPart := i + 1 }
      else extnameScan cs i st
    else
      let st1 := if st.endIdx.isNone then { st with endIdx := some (i + 1) } else st
      let st2 :=
        if c = '.' then
          match st1.startDot with
          | none => { st1 with startDot := some i }
          | some _ => if st1.preDotState ≠ 1 then { st1 with preDotState := 1 } else st1
        else if st1.startDot.isSome then { st1 with preDotState := -1 }
        else st1
      extnameScan cs i st2

/-- Node function `path.extname(p)`: the extension of the last path component,
from the right-most `'.'` to the end of the string (trailing slashes
ignored); empty when the basename has no dot, when its only dot is its
first character (dot-files), or when the basename is exactly `".."`. -/
def extname (p : String) : String :=
  let cs := p.data
  let st := extnameScan cs cs.length ⟨none, 0, none, 0⟩
  match st.startDot, st.endIdx with
  | some sd, some e =>
    if st.preDotState = 0 ∨
        (st.preDotState = 1 ∧ sd = e - 1 ∧ sd = st.startPart + 1) then ""
    else String.mk ((cs.drop sd).take (e - sd))
  | _, _ => ""

/-- The six content types accepted by the regex
`/^image\/(jpeg|jpg|pjpeg|png|gif|webp)$/i` in `upload.fileFilter`
(lower-cased; the regex is case-insensitive and anchored at both ends). -/
def allowedMimeTypes : List String :=
  ["image/jpeg", "image/jpg", "image/pjpeg", "image/png", "image/gif", "image/webp"]

/-- Test `allowedMime.test(mimetype)`: the declared content type matches the
case-insensitive anchored alternation. -/
def allowedMimeTest (mimetype : String) : Bool :=
  strLowerAscii mimetype ∈ allowedMimeTypes

/-- List `allowedExt` of `upload.fileFilter`. -/
def allowedExtensions : List String :=
  [".jpg", ".jpeg", ".png", ".gif", ".webp"]

/-- The rejection message produced by `upload.fileFilter`. -/
def onlyImagesMessage : String :=
  "Only images (.jpeg, .jpg, .png, .gif, .webp) are allowed."

/-- Callback `upload.fileFilter`: accept when the declared content type matches the
image regex; else accept when the lower-cased extension of the original
filename is in the allowed list; else reject with the `Only images`
error.  (`path.extname(file.originalname || '') || ''` collapses to
`extname originalname` over strings: `extname` already returns `""` on
`""`.)  The `Bool` result is the accept flag of the callback; rejection carries
the error message. -/
def fileFilter (mimetype originalname : String) : Except String Bool :=
  if allowedMimeTest mimetype then Except.ok true
  else
    let ext := strLowerAscii (extname originalname)
    if ext ∈ allowedExtensions then Except.ok true
    else Except.error onlyImagesMessage

/-- Limit `limits.fileSize` passed to multer: 5 MiB. -/
def fileSizeLimit : Nat := 5 * 1024 * 1024

/-- Modelled from the spec: the multer/busboy enforcement of
`limits.fileSize` (the multer library itself is a dependency, not a source
file of this repository).  Per spec section 4.1, a payload is rejected with
`PayloadTooLarge` exactly when its byte length exceeds the limit; a payload
of exactly the limit is accepted.  `true` means the size gate passes. -/
def sizeGate (byteLength : Nat) : Bool :=
  decide (byteLength ≤ fileSizeLimit)

/-- The errors reaching the final `app.use` error middleware. -/
inductive ServerErr where
  /-- a `multer.MulterError` whose `code` is `LIMIT_FILE_SIZE` -/
  | limitFileSize : ServerErr
  /-- any other error, carrying its `message` -/
  | generic (msg : String) : ServerErr
deriving Repr, DecidableEq

/-- The error-handling middleware at the bottom of `server.js`: a multer
`LIMIT_FILE_SIZE` error becomes `400 File too large`; an error whose
message contains `Only images` becomes `400` with that message; everything
else becomes `500`. -/
def errorMiddleware : ServerErr → Nat × String
  | ServerErr.limitFileSize => (400, "File too large. Max 5 MB.")
  | ServerErr.generic msg =>
    if strContainsSub msg "Only images" then (400, msg)
    else (500, msg)

/-- JavaScript `a || b` over possibly-undefined strings: `b` when `a` is
`undefined` or the empty string (the only falsy string), else `a`. -/
def jsOrStr (a b : Option String) : Option String :=
  match a with
  | some s => if s = "" then b else some s
  | none => b

/-- The identifier fallback chain of the upload handler:
`req.query?.userId || req.query?.user_id || req.body?.userId || req.body?.user_id`. -/
def selectRawUserId (qUserId qUserUnd bUserId bUserUnd : Option String) : Option String :=
  jsOrStr qUserId (jsOrStr qUserUnd (jsOrStr bUserId bUserUnd))

/-- Expression `(rawUserId || randomUUID()).toString().replace(/\//g, '-')`: the key
identifier segment.  Here `uuid` stands for the value `randomUUID()` would
return on this request; it is only consulted when `rawUserId` is absent or
empty. -/
def deriveUserId (rawUserId : Option String) (uuid : String) : String :=
  replaceSlashes
    (match rawUserId with
     | some s => if s = "" then uuid else s
     | none => uuid)

/-- Expression `path.extname(req.file.originalname) || ".jpg"`: the key extension
segment (note: taken verbatim from the filename, not lower-cased). -/
def deriveExtSegment (originalname : String) : String :=
  let e := extname originalname
  if e = "" then ".jpg" else e

/-- The derived storage key: ``` `${PROFILE_PREFIX}/${userId}${ext}` ```.
`pfx` is `PROFILE_PREFIX` (env `S3_PROFILE_PREFIX`, default
`"profile-pics"`). -/
def deriveKey (pfx : String) (rawUserId : Option String) (uuid : String)
    (originalname : String) : String :=
  pfx ++ "/" ++ deriveUserId rawUserId uuid ++ deriveExtSegment originalname

/-- Default value of `PROFILE_PREFIX`. -/
def profilePicsDir : String := "profile-pics"

/-- The extension-to-content-type table of the upload handler:
`.png`, `.gif`, `.webp` map to their types, everything else to
`image/jpeg`. -/
def extMime (ext : String) : String :=
  if ext = ".png" then "image/png"
  else if ext = ".gif" then "image/gif"
  else if ext = ".webp" then "image/webp"
  else "image/jpeg"

/-- The content-type resolution of the upload handler:
`req.file.mimetype && /^image\//.test(req.file.mimetype) ? req.file.mimetype : (...)`.
(`""` is falsy and also fails the regex, so the truthiness test collapses
into the prefix test over strings.) -/
def resolveMime (mimetype ext : String) : String :=
  if strStartsWith mimetype "image/" then mimetype else extMime ext

/-- A display URL is either a signed, time-limited URL for a key (with its
`expiresIn` lifetime in seconds) or a concatenated public URL. -/
inductive DisplayUrl where
  | signed (key : String) (expiresIn : Nat) : DisplayUrl
  | publicUrl (u : String) : DisplayUrl
deriving Repr, DecidableEq

/-- Lifetime `expiresIn` used for the upload response signed URL:
`60 * 60 * 24 * 6` seconds (six days). -/
def uploadSignedUrlLifetime : Nat := 60 * 60 * 24 * 6

/-- URL resolution in the upload handler: when `S3_PUBLIC_BASE_URL` is set
(and truthy), the URL is `baseUrl.replace(/\/$/, '') + '/' + key`;
otherwise a signed URL with a six-day lifetime is requested. -/
def resolveUploadUrl (baseUrl : Option String) (key : String) : DisplayUrl :=
  match baseUrl with
  | some b =>
    if b = "" then DisplayUrl.signed key uploadSignedUrlLifetime
    else DisplayUrl.publicUrl (stripTrailingSlash b ++ "/" ++ key)
  | none => DisplayUrl.signed key uploadSignedUrlLifetime

/-- One object durably held by the backing store. -/
structure StoredObject where
  key : String
  body : List Nat
  contentType : String
  cacheControl : String
deriving Repr, DecidableEq

/-- The backing store, keyed by storage key (last write wins). -/
structure S3Store where
  objects : List StoredObject
deriving Repr, DecidableEq

/-- Semantics of `PutObjectCommand` on the store model: overwrite the object
at `o.key`, keeping all other keys. -/
def putObject (st : S3Store) (o : StoredObject) : S3Store :=
  ⟨o :: st.objects.filter (fun x => x.key ≠ o.key)⟩

/-- Header `CacheControl` sent with every upload. -/
def uploadCacheControl : String := "public, max-age=31536000"

/-- The outcome of one upload request, as seen by the client. -/
inductive UploadOutcome where
  /-- request rejected before reaching the handler body or by its guards
  (status, error message) -/
  | rejected (status : Nat) (msg : String) : UploadOutcome
  /-- handler body threw; caught and reported (status 500, message) -/
  | failed (status : Nat) (msg : String) : UploadOutcome
  /-- success response `201` with `success: true`, `url` and `key` -/
  | success (status : Nat) (url : DisplayUrl) (key : String) : UploadOutcome
deriving Repr, DecidableEq

/-- One upload request: whether a `file` part is present, its declared
content type, original filename and byte content, the four identifier
fields, and the `randomUUID()` value drawn for this request. -/
structure UploadRequest where
  hasFile : Bool
  mimetype : String
  originalname : String
  body : List Nat
  qUserId : Option String
  qUserUnd : Option String
  bUserId : Option String
  bUserUnd : Option String
  uuid : String
deriving Repr, DecidableEq

/-- Endpoint `POST /api/upload/profile-pic` end to end, over the store model.
`pfx` and `baseUrl` are the configuration; `putOk` and `signOk` say
whether the two external calls (`PutObjectCommand`, `getSignedUrl`)
succeed on this request.  Multer runs first: the file filter, then the
size limit (rejections go through `errorMiddleware` and make no storage
call).  The handler then derives key and content type, performs the put
(on failure the catch block answers 500 and, the put having failed, the
store is unchanged), resolves the URL (a signing failure is also caught as
500 — but after the put has already durably changed the store), and
answers 201. -/
def handleUpload (pfx : String) (baseUrl : Option String) (req : UploadRequest)
    (putOk signOk : Bool) (store : S3Store) : UploadOutcome × S3Store :=
  match fileFilter req.mimetype req.originalname with
  | Except.error msg =>
    let r := errorMiddleware (ServerErr.generic msg)
    (UploadOutcome.rejected r.1 r.2, store)
  | Except.ok _ =>
    if ¬ sizeGate req.body.length then
      let r := errorMiddleware ServerErr.limitFileSize
      (UploadOutcome.rejected r.1 r.2, store)
    else if ¬ req.hasFile then
      (UploadOutcome.rejected 400 "No file uploaded. Use field name \"file\".", store)
    else
      let rawUserId := selectRawUserId req.qUserId req.qUserUnd req.bUserId req.bUserUnd
      let key := deriveKey pfx rawUserId req.uuid req.originalname
      let mime := resolveMime req.mimetype (deriveExtSegment req.originalname)
      if ¬ putOk then
        (UploadOutcome.failed 500 "Upload failed", store)
      else
        let store1 := putObject store ⟨key, req.body, mime, uploadCacheControl⟩
        match baseUrl with
        | some b =>
          if b = "" then
            if ¬ signOk then (UploadOutcome.failed 500 "Upload failed", store1)
            else (UploadOutcome.success 201 (resolveUploadUrl baseUrl key) key, store1)
          else (UploadOutcome.success 201 (resolveUploadUrl baseUrl key) key, store1)
        | none =>
          if ¬ signOk then (UploadOutcome.failed 500 "Upload failed", store1)
          else (UploadOutcome.success 201 (resolveUploadUrl baseUrl key) key, store1)

/-- Parameter `MaxKeys` sent in the `ListObjectsV2Command` of `GET /api/profile-pics`. -/
def listMaxKeys : Nat := 100

/-- Parameter `Prefix` sent in the `ListObjectsV2Command`: `PROFILE_PREFIX + '/'`. -/
def listRequestedDir (pfx : String) : String := pfx ++ "/"

/-- One summary entry returned by the listing (the backend list `Contents`). -/
structure ListedObject where
  key : String
  size : Nat
  lastModified : Nat
deriving Repr, DecidableEq

/-- One item of the `GET /api/profile-pics` response body. -/
structure ListItem where
  key : String
  size : Nat
  lastModified : Nat
  url : Option String
deriving Repr, DecidableEq

/-- The mapping of `GET /api/profile-pics` over the backend list `Contents`:
`baseUrl` is `(S3_PUBLIC_BASE_URL || '').replace(/\/$/, '')`, and each
per-item `url` is ``` `${baseUrl}/${key}` ``` when that is truthy, else
`null`.  No signing happens here. -/
def listImages (baseUrl : Option String) (contents : List ListedObject) : List ListItem :=
  let b := stripTrailingSlash (match baseUrl with | some s => s | none => "")
  contents.map (fun o =>
    ⟨o.key, o.size, o.lastModified,
     if b = "" then none else some (b ++ "/" ++ o.key)⟩)

/-- Endpoint `GET /api/profile-pic/:key`: signs the (decoded) caller-supplied key
with `expiresIn: 3600`.  The store is a parameter only to make explicit
that the handler never consults it: no existence check precedes signing. -/
def resolveUrlForKey (store : S3Store) (key : String) : DisplayUrl :=
  DisplayUrl.signed key 3600

theorem allowedMime_iff (m : String) :
    strLowerAscii m ∈ allowedMimeTypes ↔
      (strLowerAscii m = "image/jpeg" ∨ strLowerAscii m = "image/jpg" ∨
       strLowerAscii m = "image/pjpeg" ∨ strLowerAscii m = "image/png" ∨
       strLowerAscii m = "image/gif" ∨ strLowerAscii m = "image/webp") := by
  simp [allowedMimeTypes]

theorem allowedExt_iff (e : String) :
    e ∈ allowedExtensions ↔
      (e = ".jpg" ∨ e = ".jpeg" ∨ e = ".png" ∨ e = ".gif" ∨ e = ".webp") := by
  simp [allowedExtensions]

/-- C1: for every upload payload, the Validator accepts exactly when the
declared content type case-insensitively equals one of the six allowed
image types, or, failing that, when the lower-cased extension derived from
the original filename is one of the five allowed extensions; otherwise it
rejects with the `Only images` message, which the error middleware reports
to the client as a 400 whose message contains `Only images`. -/
theorem C1_validator_media_types (mimetype originalname : String) :
    (fileFilter mimetype originalname = Except.ok true ↔
      (strLowerAscii mimetype = "image/jpeg" ∨ strLowerAscii mimetype = "image/jpg" ∨
       strLowerAscii mimetype = "image/pjpeg" ∨ strLowerAscii mimetype = "image/png" ∨
       strLowerAscii mimetype = "image/gif" ∨ strLowerAscii mimetype = "image/webp" ∨
       strLowerAscii (extname originalname) = ".jpg" ∨
       strLowerAscii (extname originalname) = ".jpeg" ∨
       strLowerAscii (extname originalname) = ".png" ∨
       strLowerAscii (extname originalname) = ".gif" ∨
       strLowerAscii (extname originalname) = ".webp")) ∧
    (∀ msg, fileFilter mimetype originalname = Except.error msg →
      msg = onlyImagesMessage ∧ strContainsSub msg "Only images" = true ∧
      errorMiddleware (ServerErr.generic msg) = (400, msg)) := by
  have hk : fileFilter mimetype originalname = Except.ok true ↔
      (strLowerAscii mimetype ∈ allowedMimeTypes ∨
       strLowerAscii (extname originalname) ∈ allowedExtensions) := by
    unfold fileFilter
    by_cases h1 : allowedMimeTest mimetype
    · have h1m : strLowerAscii mimetype ∈ allowedMimeTypes := by
        simpa [allowedMimeTest] using h1
      simp [h1, h1m]
    · have h1m : strLowerAscii mimetype ∉ allowedMimeTypes := by
        simpa [allowedMimeTest] using h1
      by_cases h2 : strLowerAscii (extname originalname) ∈ allowedExtensions
      · simp [h1, h1m, h2]
      · simp [h1, h1m, h2]
  constructor
  · rw [hk, allowedMime_iff, allowedExt_iff]
    tauto
  · intro msg h
    unfold fileFilter at h
    by_cases h1 : allowedMimeTest mimetype
    · simp [h1] at h
    · by_cases h2 : strLowerAscii (extname originalname) ∈ allowedExtensions
      · simp [h1, h2] at h
      · simp [h1, h2] at h
        subst msg
        exact ⟨rfl, by decide, by decide⟩

/-- Witness for C1 at concrete inputs: an upper-case declared image type is
accepted, and a `text/plain` upload named `notes.txt` is rejected with the
`Only images` message, reported as a 400. -/
theorem C1_validator_media_types_witness :
    fileFilter "image/JPEG" "photo" = Except.ok true ∧
    (onlyImagesMessage = onlyImagesMessage ∧
     strContainsSub onlyImagesMessage "Only images" = true ∧
     errorMiddleware (ServerErr.generic onlyImagesMessage) = (400, onlyImagesMessage)) :=
  ⟨(C1_validator_media_types "image/JPEG" "photo").1.mpr (Or.inl (by decide)),
   (C1_validator_media_types "text/plain" "notes.txt").2 onlyImagesMessage (by decide)⟩

/-- C2: key derivation is deterministic for a supplied (non-empty)
identifier: the identifier segment of the derived key is the raw
identifier with every slash replaced by a dash, so the derived key does
not depend on the per-request random UUID; in particular the Shopify-style
identifier of the spec always yields the same key. -/
theorem C2_deriveKey_deterministic (raw fn pfx uuid uuid2 : String) (h : raw ≠ "") :
    deriveUserId (some raw) uuid = replaceSlashes raw ∧
    deriveKey pfx (some raw) uuid fn = deriveKey pfx (some raw) uuid2 fn ∧
    deriveKey "profile-pics" (some "gid://shopify/Customer/123") uuid "a.png" =
      "profile-pics/gid:--shopify-Customer-123.png" := by
  have hseg : ∀ u : String, deriveUserId (some raw) u = replaceSlashes raw := by
    intro u
    unfold deriveUserId
    simp [h]
  refine ⟨hseg uuid, ?_, ?_⟩
  · unfold deriveKey
    rw [hseg uuid, hseg uuid2]
  · show "profile-pics" ++ "/" ++ deriveUserId (some "gid://shopify/Customer/123") uuid ++
      deriveExtSegment "a.png" = "profile-pics/gid:--shopify-Customer-123.png"
    have h2 : deriveUserId (some "gid://shopify/Customer/123") uuid =
        "gid:--shopify-Customer-123" := by
      unfold deriveUserId
      simp
      decide
    rw [h2]
    decide

/-- Witness for C2 at concrete inputs. -/
theorem C2_deriveKey_deterministic_witness :
    deriveUserId (some "u/v") "uuidA" = replaceSlashes "u/v" ∧
    deriveKey "p" (some "u/v") "uuidA" "a.png" = deriveKey "p" (some "u/v") "uuidB" "a.png" ∧
    deriveKey "profile-pics" (some "gid://shopify/Customer/123") "uuidA" "a.png" =
      "profile-pics/gid:--shopify-Customer-123.png" :=
  C2_deriveKey_deterministic "u/v" "a.png" "p" "uuidA" "uuidB" (by decide)

theorem handleUpload_success_inv (pfx : String) (baseUrl : Option String) (req : UploadRequest)
    (putOk signOk : Bool) (store : S3Store) (s : Nat) (url : DisplayUrl) (key : String)
    (h : (handleUpload pfx baseUrl req putOk signOk store).1 = UploadOutcome.success s url key) :
    s = 201 ∧
    key = deriveKey pfx (selectRawUserId req.qUserId req.qUserUnd req.bUserId req.bUserUnd)
        req.uuid req.originalname ∧
    url = resolveUploadUrl baseUrl key ∧
    (handleUpload pfx baseUrl req putOk signOk store).2 =
      putObject store ⟨key, req.body,
        resolveMime req.mimetype (deriveExtSegment req.originalname), uploadCacheControl⟩ := by
  revert h
  simp only [handleUpload]
  split
  · intro h; simp at h
  · split
    · intro h; simp at h
    · split
      · intro h; simp at h
      · split
        · intro h; simp at h
        · split
          · split
            · split
              · intro h; simp at h
              · intro h
                simp only [UploadOutcome.success.injEq] at h
                obtain ⟨hs, hu, hk⟩ := h
                subst hs; subst hk; subst hu
                exact ⟨rfl, rfl, rfl, rfl⟩
            · intro h
              simp only [UploadOutcome.success.injEq] at h
              obtain ⟨hs, hu, hk⟩ := h
              subst hs; subst hk; subst hu
              exact ⟨rfl, rfl, rfl, rfl⟩
          · split
            · intro h; simp at h
            · intro h
              simp only [UploadOutcome.success.injEq] at h
              obtain ⟨hs, hu, hk⟩ := h
              subst hs; subst hk; subst hu
              exact ⟨rfl, rfl, rfl, rfl⟩

theorem handleUpload_rejected_inv (pfx : String) (baseUrl : Option String) (req : UploadRequest)
    (putOk signOk : Bool) (store : S3Store) (s : Nat) (m : String)
    (h : (handleUpload pfx baseUrl req putOk signOk store).1 = UploadOutcome.rejected s m) :
    (handleUpload pfx baseUrl req putOk signOk store).2 = store := by
  revert h
  simp only [handleUpload]
  split
  · intro h; rfl
  · split
    · intro h; rfl
    · split
      · intro h; rfl
      · split
        · intro h; rfl
        · split
          · split
            · split
              · intro h; simp at h
              · intro h; simp at h
            · intro h; simp at h
          · split
            · intro h; simp at h
            · intro h; simp at h

/-- Counterexample to C3 as stated: an upload whose original filename is
`a.PNG` succeeds with key `profile-pics/u.PNG` — the extension is kept
verbatim, not lower-cased to `.png` as the claim requires. -/
theorem C3_counterexample_uppercase_extension :
    (handleUpload "profile-pics" (some "http://cdn")
        ⟨true, "image/png", "a.PNG", [7], some "u", none, none, none, "x"⟩
        true true ⟨[]⟩).1 =
      UploadOutcome.success 201 (DisplayUrl.publicUrl "http://cdn/profile-pics/u.PNG")
        "profile-pics/u.PNG" ∧
    "profile-pics/u.PNG" ≠ "profile-pics" ++ "/" ++ "u" ++ ".png" := by
  decide

/-- C3 amended: for every upload request that succeeds, the storage key
has the exact form `pfx/identifier ++ extension`, where the extension is
the extension of the original filename taken verbatim (case preserved,
not lower-cased) when one exists, and defaults to `.jpg` when the
filename has no extension. -/
theorem C3_amended_key_shape (pfx : String) (baseUrl : Option String) (req : UploadRequest)
    (putOk signOk : Bool) (store : S3Store) (s : Nat) (url : DisplayUrl) (key : String)
    (h : (handleUpload pfx baseUrl req putOk signOk store).1 = UploadOutcome.success s url key) :
    key = pfx ++ "/" ++
      deriveUserId (selectRawUserId req.qUserId req.qUserUnd req.bUserId req.bUserUnd) req.uuid ++
      (if extname req.originalname = "" then ".jpg" else extname req.originalname) := by
  obtain ⟨_, hk, _, _⟩ := handleUpload_success_inv _ _ _ _ _ _ _ _ _ h
  rw [hk]
  rfl

/-- Witness for the amended C3 at a concrete successful upload. -/
theorem C3_amended_key_shape_witness :
    "profile-pics/u.PNG" = "profile-pics" ++ "/" ++
      deriveUserId (selectRawUserId (some "u") none none none) "x" ++
      (if extname "a.PNG" = "" then ".jpg" else extname "a.PNG") :=
  C3_amended_key_shape "profile-pics" (some "http://cdn")
    ⟨true, "image/png", "a.PNG", [7], some "u", none, none, none, "x"⟩
    true true ⟨[]⟩ 201 (DisplayUrl.publicUrl "http://cdn/profile-pics/u.PNG")
    "profile-pics/u.PNG" (by decide)

/-- C4: the size gate is exact at 5 MiB — a payload of exactly
`5 * 1024 * 1024` bytes passes the gate, while one of 5 MiB + 1 byte is
rejected and reported to the client as a 400 (the gate itself looks only
at the byte length, so the decision is independent of the content-type
check); end to end, an over-limit upload whose type check passes is
rejected with the 400 message and the store is untouched. -/
theorem C4_size_gate_exact :
    sizeGate (5 * 1024 * 1024) = true ∧
    sizeGate (5 * 1024 * 1024 + 1) = false ∧
    errorMiddleware ServerErr.limitFileSize = (400, "File too large. Max 5 MB.") ∧
    (∀ (pfx : String) (baseUrl : Option String) (req : UploadRequest)
        (putOk signOk : Bool) (store : S3Store),
      req.body.length = 5 * 1024 * 1024 + 1 →
      fileFilter req.mimetype req.originalname = Except.ok true →
      handleUpload pfx baseUrl req putOk signOk store =
        (UploadOutcome.rejected 400 "File too large. Max 5 MB.", store)) := by
  refine ⟨by decide, by decide, by decide, ?_⟩
  intro pfx baseUrl req putOk signOk store hlen hff
  have hsz : sizeGate req.body.length = false := by
    rw [hlen]; decide
  simp [handleUpload, hff, hsz, errorMiddleware]

/-- Witness for C4 at a concrete over-limit upload. -/
theorem C4_size_gate_exact_witness :
    handleUpload "profile-pics" none
        ⟨true, "image/png", "a.png", List.replicate (5 * 1024 * 1024 + 1) 0,
         some "u", none, none, none, "x"⟩ true true ⟨[]⟩ =
      (UploadOutcome.rejected 400 "File too large. Max 5 MB.", ⟨[]⟩) :=
  C4_size_gate_exact.2.2.2 "profile-pics" none
    ⟨true, "image/png", "a.png", List.replicate (5 * 1024 * 1024 + 1) 0,
     some "u", none, none, none, "x"⟩ true true ⟨[]⟩
    (by show (List.replicate (5 * 1024 * 1024 + 1) (0 : Nat)).length = 5 * 1024 * 1024 + 1
        exact List.length_replicate _ _)
    (by decide)

/-- Counterexample to C5 as stated: a valid upload whose storage put
succeeds but whose signed-URL resolution then fails answers a 500
failure, yet the object has been durably stored — a failing request that
changed the store, contradicting the claim that a storage put never
happens on a request that ultimately fails. -/
theorem C5_counterexample_put_then_sign_failure :
    (handleUpload "profile-pics" none
        ⟨true, "image/png", "a.png", [7], some "u", none, none, none, "x"⟩
        true false ⟨[]⟩).1 = UploadOutcome.failed 500 "Upload failed" ∧
    (handleUpload "profile-pics" none
        ⟨true, "image/png", "a.png", [7], some "u", none, none, none, "x"⟩
        true false ⟨[]⟩).2 =
      ⟨[⟨"profile-pics/u.png", [7], "image/png", uploadCacheControl⟩]⟩ ∧
    (⟨[⟨"profile-pics/u.png", [7], "image/png", uploadCacheControl⟩]⟩ : S3Store) ≠ ⟨[]⟩ := by
  decide

/-- C5 amended: when validation rejects, the store is unchanged (no put is
made); every successful upload has both stored the bytes under its key
and resolved its URL by the configured policy; but a put can happen on a
request that ultimately fails — when the put succeeds and the signed-URL
step then fails, the request answers 500 while the object remains
durably stored. -/
theorem C5_amended_upload_atomicity (pfx : String) (baseUrl : Option String)
    (req : UploadRequest) (putOk signOk : Bool) (store : S3Store) :
    (∀ s m, (handleUpload pfx baseUrl req putOk signOk store).1 = UploadOutcome.rejected s m →
      (handleUpload pfx baseUrl req putOk signOk store).2 = store) ∧
    (∀ s url key,
      (handleUpload pfx baseUrl req putOk signOk store).1 = UploadOutcome.success s url key →
      url = resolveUploadUrl baseUrl key ∧
      (⟨key, req.body, resolveMime req.mimetype (deriveExtSegment req.originalname),
        uploadCacheControl⟩ : StoredObject) ∈
          (handleUpload pfx baseUrl req putOk signOk store).2.objects) ∧
    (baseUrl = none → putOk = true → signOk = false →
      fileFilter req.mimetype req.originalname = Except.ok true →
      sizeGate req.body.length = true → req.hasFile = true →
      (handleUpload pfx baseUrl req putOk signOk store).1 =
        UploadOutcome.failed 500 "Upload failed" ∧
      (handleUpload pfx baseUrl req putOk signOk store).2 =
        putObject store
          ⟨deriveKey pfx (selectRawUserId req.qUserId req.qUserUnd req.bUserId req.bUserUnd)
             req.uuid req.originalname,
           req.body, resolveMime req.mimetype (deriveExtSegment req.originalname),
           uploadCacheControl⟩) := by
  refine ⟨?_, ?_, ?_⟩
  · intro s m h
    exact handleUpload_rejected_inv pfx baseUrl req putOk signOk store s m h
  · intro s url key h
    obtain ⟨_, hk, hu, hst⟩ := handleUpload_success_inv pfx baseUrl req putOk signOk store s url key h
    refine ⟨hu, ?_⟩
    rw [hst, hk]
    exact List.mem_cons_self _ _
  · intro hb hput hsign hff hsz hhf
    subst hb; subst hput; subst hsign
    constructor <;> simp [handleUpload, hff, hsz, hhf]

/-- Witness for the amended C5 at concrete requests: a rejected upload
leaves the empty store empty; a fully successful upload has stored its
object and resolved its URL; a put followed by a signing failure leaves
the object stored while the request fails. -/
theorem C5_amended_upload_atomicity_witness :
    (handleUpload "profile-pics" none
        ⟨true, "text/plain", "notes.txt", [1], some "u", none, none, none, "x"⟩
        true true ⟨[]⟩).2 = ⟨[]⟩ ∧
    (DisplayUrl.signed "profile-pics/u.png" uploadSignedUrlLifetime =
        resolveUploadUrl none "profile-pics/u.png" ∧
      (⟨"profile-pics/u.png", [7], resolveMime "image/png" (deriveExtSegment "a.png"),
        uploadCacheControl⟩ : StoredObject) ∈
        (handleUpload "profile-pics" none
          ⟨true, "image/png", "a.png", [7], some "u", none, none, none, "x"⟩
          true true ⟨[]⟩).2.objects) ∧
    ((handleUpload "profile-pics" none
        ⟨true, "image/png", "a.png", [7], some "u", none, none, none, "x"⟩
        true false ⟨[]⟩).1 = UploadOutcome.failed 500 "Upload failed" ∧
      (handleUpload "profile-pics" none
        ⟨true, "image/png", "a.png", [7], some "u", none, none, none, "x"⟩
        true false ⟨[]⟩).2 =
        putObject ⟨[]⟩
          ⟨deriveKey "profile-pics" (selectRawUserId (some "u") none none none) "x" "a.png",
           [7], resolveMime "image/png" (deriveExtSegment "a.png"), uploadCacheControl⟩) :=
  ⟨(C5_amended_upload_atomicity "profile-pics" none
      ⟨true, "text/plain", "notes.txt", [1], some "u", none, none, none, "x"⟩
      true true ⟨[]⟩).1 400 onlyImagesMessage (by decide),
   (C5_amended_upload_atomicity "profile-pics" none
      ⟨true, "image/png", "a.png", [7], some "u", none, none, none, "x"⟩
      true true ⟨[]⟩).2.1 201
      (DisplayUrl.signed "profile-pics/u.png" uploadSignedUrlLifetime)
      "profile-pics/u.png" (by decide),
   (C5_amended_upload_atomicity "profile-pics" none
      ⟨true, "image/png", "a.png", [7], some "u", none, none, none, "x"⟩
      true false ⟨[]⟩).2.2 rfl rfl rfl (by decide) (by decide) (by decide)⟩

/-- C6: URL resolution for a successful upload is mode-determined — with a
static public base URL configured the url is the base (one trailing slash
stripped) joined to the key with a single slash; without one it is a
signed URL whose lifetime is `60 * 60 * 24 * 6` seconds, at most 6 days. -/
theorem C6_url_resolution_mode (b key : String) (hb : b ≠ "") :
    resolveUploadUrl (some b) key =
      DisplayUrl.publicUrl (stripTrailingSlash b ++ "/" ++ key) ∧
    (∀ k, resolveUploadUrl none k = DisplayUrl.signed k uploadSignedUrlLifetime) ∧
    uploadSignedUrlLifetime = 60 * 60 * 24 * 6 ∧
    uploadSignedUrlLifetime ≤ 6 * 24 * 60 * 60 := by
  refine ⟨?_, fun k => rfl, rfl, by decide⟩
  unfold resolveUploadUrl
  simp [hb]

/-- Witness for C6 at a concrete base URL and key. -/
theorem C6_url_resolution_mode_witness :
    resolveUploadUrl (some "https://cdn.example/") "profile-pics/a.jpg" =
      DisplayUrl.publicUrl (stripTrailingSlash "https://cdn.example/" ++ "/" ++ "profile-pics/a.jpg") ∧
    (∀ k, resolveUploadUrl none k = DisplayUrl.signed k uploadSignedUrlLifetime) ∧
    uploadSignedUrlLifetime = 60 * 60 * 24 * 6 ∧
    uploadSignedUrlLifetime ≤ 6 * 24 * 60 * 60 :=
  C6_url_resolution_mode "https://cdn.example/" "profile-pics/a.jpg" (by decide)

/-- C7: the Content-Type Resolver uses the declared content type verbatim
whenever it begins with `image/`; otherwise it maps the extension
`.png`, `.gif`, `.webp` to the corresponding image type and every other
extension to `image/jpeg` — in particular, a filename without an
extension falls through (via the `.jpg` default segment) to `image/jpeg`. -/
theorem C7_content_type_resolution (mimetype ext fn : String) :
    (strStartsWith mimetype "image/" = true → resolveMime mimetype ext = mimetype) ∧
    (strStartsWith mimetype "image/" = false →
      resolveMime mimetype ".png" = "image/png" ∧
      resolveMime mimetype ".gif" = "image/gif" ∧
      resolveMime mimetype ".webp" = "image/webp" ∧
      (ext ≠ ".png" → ext ≠ ".gif" → ext ≠ ".webp" →
        resolveMime mimetype ext = "image/jpeg")) ∧
    (extname fn = "" → strStartsWith mimetype "image/" = false →
      resolveMime mimetype (deriveExtSegment fn) = "image/jpeg") := by
  refine ⟨?_, ?_, ?_⟩
  · intro h
    simp [resolveMime, h]
  · intro h
    refine ⟨by simp [resolveMime, h, extMime], by simp [resolveMime, h, extMime],
            by simp [resolveMime, h, extMime], ?_⟩
    intro h1 h2 h3
    simp [resolveMime, h, extMime, h1, h2, h3]
  · intro hfn h
    have he : deriveExtSegment fn = ".jpg" := by
      unfold deriveExtSegment
      simp [hfn]
    rw [he]
    simp [resolveMime, h, extMime]

/-- Witness for C7: a declared `image/svg+xml` type is used verbatim; for
an `application/octet-stream` declaration the extension table applies,
with `.bmp` falling to `image/jpeg`; with no extension the resolver also
yields `image/jpeg`. -/
theorem C7_content_type_resolution_witness :
    resolveMime "image/svg+xml" ".bmp" = "image/svg+xml" ∧
    (resolveMime "application/octet-stream" ".png" = "image/png" ∧
     resolveMime "application/octet-stream" ".gif" = "image/gif" ∧
     resolveMime "application/octet-stream" ".webp" = "image/webp" ∧
     resolveMime "application/octet-stream" ".bmp" = "image/jpeg") ∧
    resolveMime "application/octet-stream" (deriveExtSegment "noext") = "image/jpeg" :=
  ⟨(C7_content_type_resolution "image/svg+xml" ".bmp" "noext").1 (by decide),
   ⟨((C7_content_type_resolution "application/octet-stream" ".bmp" "noext").2.1 (by decide)).1,
    ((C7_content_type_resolution "application/octet-stream" ".bmp" "noext").2.1 (by decide)).2.1,
    ((C7_content_type_resolution "application/octet-stream" ".bmp" "noext").2.1 (by decide)).2.2.1,
    ((C7_content_type_resolution "application/octet-stream" ".bmp" "noext").2.1 (by decide)).2.2.2
      (by decide) (by decide) (by decide)⟩,
   (C7_content_type_resolution "application/octet-stream" ".bmp" "noext").2.2
     (by decide) (by decide)⟩

/-- C8: for every caller-supplied key, the by-key lookup requests a signed
URL with a lifetime of exactly 3600 seconds; the handler never consults
the store, so the same URL is produced whatever the store holds — in
particular even when no stored object has that key. -/
theorem C8_lookup_signed_one_hour (store store2 : S3Store) (key : String) :
    resolveUrlForKey store key = DisplayUrl.signed key 3600 ∧
    resolveUrlForKey store key = resolveUrlForKey store2 key ∧
    ((∀ o ∈ store.objects, o.key ≠ key) →
      resolveUrlForKey store key = DisplayUrl.signed key 3600) :=
  ⟨rfl, rfl, fun _ => rfl⟩

/-- Witness for C8: the empty store holds no object under the key, and a
signed URL is produced all the same. -/
theorem C8_lookup_signed_one_hour_witness :
    resolveUrlForKey ⟨[]⟩ "profile-pics/missing.jpg" =
      DisplayUrl.signed "profile-pics/missing.jpg" 3600 :=
  (C8_lookup_signed_one_hour ⟨[]⟩ ⟨[]⟩ "profile-pics/missing.jpg").2.2 (by simp)

/-- C9: the listing requests at most 100 keys (the `MaxKeys` constant)
under the configured directory, and for every returned item the `url`
field is null unless a static public base URL is configured (truthy after
stripping one trailing slash), in which case it is the stripped base
joined to the item key; the listing path never signs a URL (every `url`
is exactly this concatenation or null). -/
theorem C9_listing_policy (baseUrl : Option String) (contents : List ListedObject)
    (pfx : String) :
    listMaxKeys = 100 ∧
    listRequestedDir pfx = pfx ++ "/" ∧
    (listImages baseUrl contents).length = contents.length ∧
    (∀ item ∈ listImages baseUrl contents,
      item.url = (if stripTrailingSlash (baseUrl.getD "") = "" then none
                  else some (stripTrailingSlash (baseUrl.getD "") ++ "/" ++ item.key))) := by
  refine ⟨rfl, rfl, by simp [listImages], ?_⟩
  intro item hitem
  unfold listImages at hitem
  rw [List.mem_map] at hitem
  obtain ⟨o, ho, heq⟩ := hitem
  subst heq
  cases baseUrl <;> rfl

/-- Witness for C9 at a configured base URL with one listed object. -/
theorem C9_listing_policy_witness :
    (⟨"profile-pics/a.jpg", 3, 0, some "http://cdn/profile-pics/a.jpg"⟩ : ListItem).url =
      (if stripTrailingSlash ((some "http://cdn/").getD "") = "" then none
       else some (stripTrailingSlash ((some "http://cdn/").getD "") ++ "/" ++
         (⟨"profile-pics/a.jpg", 3, 0, some "http://cdn/profile-pics/a.jpg"⟩ : ListItem).key)) :=
  (C9_listing_policy (some "http://cdn/") [⟨"profile-pics/a.jpg", 3, 0⟩] "profile-pics").2.2.2
    ⟨"profile-pics/a.jpg", 3, 0, some "http://cdn/profile-pics/a.jpg"⟩ (by decide)

theorem jsOrStr_absent (a b : Option String) (h : a = none ∨ a = some "") :
    jsOrStr a b = b := by
  rcases h with rfl | rfl <;> simp [jsOrStr]

theorem jsOrStr_present (b : Option String) (v : String) (hv : v ≠ "") :
    jsOrStr (some v) b = some v := by
  simp [jsOrStr, hv]

theorem deriveUserId_absent (r : Option String) (uuid : String)
    (h : r = none ∨ r = some "") : deriveUserId r uuid = replaceSlashes uuid := by
  rcases h with rfl | rfl <;> simp [deriveUserId]

theorem replaceSlashes_no_slash (s : String) (h : ∀ c ∈ s.data, c ≠ '/') :
    replaceSlashes s = s := by
  unfold replaceSlashes
  have hm : s.data.map (fun c => if c = '/' then '-' else c) = s.data.map id := by
    apply List.map_congr_left
    intro a ha
    simp [h a ha]
  rw [hm, List.map_id]

theorem replaceSlashes_ne_empty (s : String) (h : s ≠ "") : replaceSlashes s ≠ "" := by
  cases s with
  | mk l =>
    cases l with
    | nil => exact absurd rfl h
    | cons a t =>
      intro hc
      have h2 := congrArg String.data hc
      have h3 : ("" : String).data = ([] : List Char) := rfl
      rw [h3] at h2
      simp [replaceSlashes] at h2

/-- C10: an empty-string identifier is treated as absent — when each of
the four accepted identifier fields is missing or empty, the identifier
segment of the derived key is the per-request random UUID (slashes
replaced, which leaves a UUID unchanged), and it is never the empty
string given that a generated UUID is non-empty; moreover the four fields
are consulted in the fixed order query `userId`, query `user_id`, body
`userId`, body `user_id`, and the first non-empty value wins. -/
theorem C10_empty_identifier_treated_absent (q1 q2 b1 b2 : Option String) (uuid : String) :
    ((q1 = none ∨ q1 = some "") → (q2 = none ∨ q2 = some "") →
     (b1 = none ∨ b1 = some "") → (b2 = none ∨ b2 = some "") →
      deriveUserId (selectRawUserId q1 q2 b1 b2) uuid = replaceSlashes uuid ∧
      ((∀ c ∈ uuid.data, c ≠ '/') →
        deriveUserId (selectRawUserId q1 q2 b1 b2) uuid = uuid) ∧
      (uuid ≠ "" → deriveUserId (selectRawUserId q1 q2 b1 b2) uuid ≠ "")) ∧
    (∀ v : String, v ≠ "" →
      (q1 = some v → selectRawUserId q1 q2 b1 b2 = some v) ∧
      ((q1 = none ∨ q1 = some "") → q2 = some v →
        selectRawUserId q1 q2 b1 b2 = some v) ∧
      ((q1 = none ∨ q1 = some "") → (q2 = none ∨ q2 = some "") → b1 = some v →
        selectRawUserId q1 q2 b1 b2 = some v) ∧
      ((q1 = none ∨ q1 = some "") → (q2 = none ∨ q2 = some "") →
        (b1 = none ∨ b1 = some "") → b2 = some v →
        selectRawUserId q1 q2 b1 b2 = some v)) := by
  constructor
  · intro h1 h2 h3 h4
    have hsel : selectRawUserId q1 q2 b1 b2 = b2 := by
      unfold selectRawUserId
      rw [jsOrStr_absent _ _ h3, jsOrStr_absent _ _ h2, jsOrStr_absent _ _ h1]
    rw [hsel]
    refine ⟨deriveUserId_absent _ _ h4, ?_, ?_⟩
    · intro hns
      rw [deriveUserId_absent _ _ h4]
      exact replaceSlashes_no_slash uuid hns
    · intro hne
      rw [deriveUserId_absent _ _ h4]
      exact replaceSlashes_ne_empty uuid hne
  · intro v hv
    refine ⟨?_, ?_, ?_, ?_⟩
    · intro hq1
      subst hq1
      unfold selectRawUserId
      rw [jsOrStr_present _ _ hv]
    · intro h1 hq2
      subst hq2
      unfold selectRawUserId
      rw [jsOrStr_present _ _ hv, jsOrStr_absent _ _ h1]
    · intro h1 h2 hb1
      subst hb1
      unfold selectRawUserId
      rw [jsOrStr_present _ _ hv, jsOrStr_absent _ _ h2, jsOrStr_absent _ _ h1]
    · intro h1 h2 h3 hb2
      subst hb2
      unfold selectRawUserId
      rw [jsOrStr_absent _ _ h3, jsOrStr_absent _ _ h2, jsOrStr_absent _ _ h1]

/-- Witness for C10: with the four fields empty or missing the identifier
segment is the UUID itself; with a value in the first or third position
that value wins. -/
theorem C10_empty_identifier_treated_absent_witness :
    deriveUserId (selectRawUserId (some "") none (some "") none) "abc-123" = "abc-123" ∧
    selectRawUserId (some "v1") none none none = some "v1" ∧
    selectRawUserId (some "") none (some "v3") none = some "v3" :=
  ⟨((C10_empty_identifier_treated_absent (some "") none (some "") none "abc-123").1
      (Or.inr rfl) (Or.inl rfl) (Or.inr rfl) (Or.inl rfl)).2.1 (by decide),
   ((C10_empty_identifier_treated_absent (some "v1") none none none "u").2 "v1"
      (by decide)).1 rfl,
   ((C10_empty_identifier_treated_absent (some "") none (some "v3") none "u").2 "v3"
      (by decide)).2.2.1 (Or.inr rfl) (Or.inl rfl) rfl⟩
